import Mathlib

/-!
Verification development for the blurhash-generator CLI (src/src/main.rs).

The program's own logic consists of two string heuristics (`looks_like_url`,
`looks_like_local_path`), the source dispatcher (`load_image`), the CLI
component validation performed in `main` (identical to the test helper
`validate_cli_parameters`), and the final encode/print step.  Those are
embedded below as executable Lean functions over `String` / `List Char`.

Library collaborators are modelled as follows:

* Rust `str::starts_with`, `ends_with`, `contains` (char and substring
  patterns) — direct list recursions (`listStartsWith`, `listHasSub`, …).
* `std::path::Path::is_absolute` / `Path::file_name` — Unix semantics
  (build target of the repository): absoluteness is a leading `/`, and
  `file_name` is the last normal path component (`path_file_name` below),
  `None` when the path terminates in `.`, `..` or is empty.
* `url::Url::parse` (the `url` crate, a WHATWG URL parser) — `urlParse`
  below implements the fragment of the WHATWG basic URL parser exercised
  here: scheme parsing, the special-scheme slash slurping, authority /
  userinfo / port splitting, host parsing with the forbidden-code-point
  check, the "ends in a number" test and the IPv4 parser (so that
  `Url::domain()` is `none` on IP-address hosts while `Url::host_str()` is
  present).  The model covers ASCII input without percent-encoding; every
  string evaluated in this development is in that fragment.
* `reqwest::StatusCode::is_success` — `200 ≤ code < 300`.
* `blurhash::encode` — an abstract `Except String String` result.
-/

namespace BlurhashGen

/-- Rust `str::starts_with`: the first list starts with the second. -/
def listStartsWith : List Char → List Char → Bool
  | _, [] => true
  | [], _ :: _ => false
  | c :: cs, p :: ps => c == p && listStartsWith cs ps

/-- Substring containment: `pat` occurs contiguously inside the second list. -/
def listHasSub (pat : List Char) : List Char → Bool
  | [] => pat.isEmpty
  | c :: rest => listStartsWith (c :: rest) pat || listHasSub pat rest

/-- Rust `str::starts_with` on `String`. -/
def strStartsWith (s p : String) : Bool := listStartsWith s.data p.data

/-- Rust `str::ends_with` on `String`. -/
def strEndsWith (s p : String) : Bool := listStartsWith s.data.reverse p.data.reverse

/-- Rust `str::contains` with a `char` pattern. -/
def strContainsChar (s : String) (c : Char) : Bool := s.data.contains c

/-- Rust `str::contains` with a substring pattern. -/
def strContainsSub (s pat : String) : Bool := listHasSub pat.data s.data

/-- Split at the first occurrence of `sep`; `none` when `sep` is absent. -/
def splitAtChar (sep : Char) : List Char → Option (List Char × List Char)
  | [] => none
  | c :: rest =>
    if c == sep then some ([], rest)
    else
      match splitAtChar sep rest with
      | some (a, b) => some (c :: a, b)
      | none => none

/-- Split on every occurrence of `sep` (WHATWG "strictly split"). -/
def splitOnChar (sep : Char) : List Char → List (List Char)
  | [] => [[]]
  | c :: rest =>
    let r := splitOnChar sep rest
    if c == sep then [] :: r
    else
      match r with
      | h :: t => (c :: h) :: t
      | [] => [[c]]

/-- The authority substring after the last `@` (userinfo stripped). -/
def afterLastAt (l : List Char) : List Char :=
  (l.reverse.takeWhile (fun c => c != '@')).reverse

/-- ASCII hex digit test. -/
def isHexDigitB (c : Char) : Bool :=
  c.isDigit || (decide ('a' ≤ c) && decide (c ≤ 'f')) || (decide ('A' ≤ c) && decide (c ≤ 'F'))

/-- ASCII octal digit test. -/
def isOctDigitB (c : Char) : Bool := decide ('0' ≤ c) && decide (c ≤ '7')

/-- Decimal value of a digit list. -/
def decValue (l : List Char) : Nat :=
  l.foldl (fun acc c => acc * 10 + (c.toNat - '0'.toNat)) 0

/-- Value of one hex digit. -/
def hexDigitVal (c : Char) : Nat :=
  if c.isDigit then c.toNat - '0'.toNat
  else if decide ('a' ≤ c) && decide (c ≤ 'f') then c.toNat - 'a'.toNat + 10
  else c.toNat - 'A'.toNat + 10

/-- Hexadecimal value of a hex-digit list. -/
def hexValue (l : List Char) : Nat :=
  l.foldl (fun acc c => acc * 16 + hexDigitVal c) 0

/-- Octal value of an octal-digit list. -/
def octValue (l : List Char) : Nat :=
  l.foldl (fun acc c => acc * 8 + (c.toNat - '0'.toNat)) 0

/-- WHATWG IPv4 number parser: decimal, `0x…` hex, or `0…` octal. -/
def parseIPv4Part (l : List Char) : Option Nat :=
  if l.isEmpty then none
  else if l.take 2 == ['0', 'x'] || l.take 2 == ['0', 'X'] then
    let rest := l.drop 2
    if rest.all isHexDigitB then some (hexValue rest) else none
  else if decide (2 ≤ l.length) && (l.head? == some '0') then
    let rest := l.drop 1
    if rest.all isOctDigitB then some (octValue rest) else none
  else if l.all Char.isDigit then some (decValue l) else none

/-- Last dot-label is a number (core of the WHATWG "ends in a number" check). -/
def endsInNumberCore (parts : List (List Char)) : Bool :=
  match parts.getLast? with
  | none => false
  | some last => (!last.isEmpty && last.all Char.isDigit) || (parseIPv4Part last).isSome

/-- WHATWG "ends in a number" checker on a candidate host. -/
def endsInNumber (l : List Char) : Bool :=
  let parts := splitOnChar '.' l
  if parts.getLast? == some [] then
    if parts.length == 1 then false else endsInNumberCore parts.dropLast
  else endsInNumberCore parts

/-- Serialization of a 32-bit IPv4 address as dotted decimal. -/
def ipv4Serialize (n : Nat) : String :=
  toString (n / 16777216 % 256) ++ "." ++ toString (n / 65536 % 256) ++ "." ++
  toString (n / 256 % 256) ++ "." ++ toString (n % 256)

/-- WHATWG IPv4 parser: validates the dotted parts and serializes the result. -/
def parseIPv4 (l : List Char) : Option String :=
  let parts0 := splitOnChar '.' l
  let parts :=
    if parts0.getLast? == some [] && decide (2 ≤ parts0.length) then parts0.dropLast else parts0
  if decide (4 < parts.length) then none
  else
    match parts.mapM parseIPv4Part with
    | none => none
    | some ns =>
      match ns.getLast? with
      | none => none
      | some last =>
        if ns.dropLast.all (fun v => decide (v ≤ 255)) && decide (last < 256 ^ (5 - ns.length)) then
          some (ipv4Serialize
            (ns.dropLast.foldl (fun acc v => acc * 256 + v) 0 * 256 ^ (4 - ns.length) + last))
        else none

/-- WHATWG forbidden host code points (opaque hosts). -/
def forbiddenHostChar (c : Char) : Bool :=
  decide (c.toNat ≤ 0x1f) || c == ' ' || c == '#' || c == '/' || c == ':' || c == '<' ||
  c == '>' || c == '?' || c == '@' || c == '[' || c == '\\' || c == ']' || c == '^' ||
  c == '|' || c == '%' || decide (c.toNat == 0x7f)

/-- A parsed URL host: either a registrable domain or an IP address.
`url::Url::domain()` is `some` exactly on the `domain` constructor, while
`url::Url::host_str()` is `some` on both. -/
inductive UrlHost where
  | domain (d : String)
  | ip (s : String)
deriving DecidableEq

/-- The part of a parsed `url::Url` that `looks_like_url` consults. -/
structure UrlRec where
  scheme : String
  host : Option UrlHost
deriving DecidableEq

/-- `url::Url::has_host`. -/
def UrlRec.hasHost (u : UrlRec) : Bool := u.host.isSome

/-- `url::Url::domain`: `some` only for named (non-IP) hosts. -/
def UrlRec.domainStr (u : UrlRec) : Option String :=
  match u.host with
  | some (.domain d) => some d
  | _ => none

/-- `url::Url::host_str`: the serialized host, named or IP. -/
def UrlRec.hostStr (u : UrlRec) : Option String :=
  match u.host with
  | some (.domain d) => some d
  | some (.ip s) => some s
  | none => none

/-- Valid characters of a URL scheme after its first letter. -/
def schemeRestChar (c : Char) : Bool :=
  c.isAlphanum || c == '+' || c == '-' || c == '.'

/-- The WHATWG special schemes. -/
def specialSchemes : List (List Char) :=
  ["http".data, "https".data, "ws".data, "wss".data, "ftp".data, "file".data]

/-- Characters ending the authority of a special-scheme URL. -/
def specialAuthorityEnd (c : Char) : Bool :=
  c == '/' || c == '\\' || c == '?' || c == '#'

/-- Characters ending the authority of a non-special URL. -/
def plainAuthorityEnd (c : Char) : Bool :=
  c == '/' || c == '?' || c == '#'

/-- Port digits check: all ASCII digits and, when non-empty, below 2^16. -/
def portDigitsOk (p : List Char) : Bool :=
  p.all Char.isDigit && (p.isEmpty || decide (decValue p < 65536))

/-- Split an authority (userinfo already stripped) into its host part,
validating the port; `none` on an invalid port or unclosed bracket. -/
def splitHostPort (l : List Char) : Option (List Char) :=
  if l.head? == some '[' then
    match splitAtChar ']' (l.drop 1) with
    | none => none
    | some (inside, after) =>
      match after with
      | [] => some ('[' :: inside ++ [']'])
      | ':' :: p => if portDigitsOk p then some ('[' :: inside ++ [']']) else none
      | _ => none
  else
    match splitAtChar ':' l with
    | none => some l
    | some (h, p) => if portDigitsOk p then some h else none

/-- WHATWG host parser for special schemes: non-empty, bracketed IPv6 kept
verbatim, forbidden code points rejected, ASCII-lowercased, and hosts that
end in a number routed through the IPv4 parser. -/
def parseHostSpecial (l : List Char) : Option UrlHost :=
  if l.isEmpty then none
  else if l.head? == some '[' then
    if l.getLast? == some ']' then some (.ip ⟨l⟩) else none
  else if l.any forbiddenHostChar then none
  else
    let low := l.map Char.toLower
    if endsInNumber low then
      match parseIPv4 low with
      | some s4 => some (.ip s4)
      | none => none
    else some (.domain ⟨low⟩)

/-- `url::Url::parse`, restricted to the scheme/host fragment this program
consults (see the module comment for the modelled scope). -/
def urlParse (s : String) : Option UrlRec :=
  match splitAtChar ':' s.data with
  | none => none
  | some (schemeRaw, rest) =>
    match schemeRaw with
    | [] => none
    | c0 :: cs =>
      if !(c0.isAlpha && cs.all schemeRestChar) then none
      else
        let scheme := (c0 :: cs).map Char.toLower
        if specialSchemes.contains scheme then
          let afterSl := rest.dropWhile (fun c => c == '/' || c == '\\')
          let auth := afterSl.takeWhile (fun c => !(specialAuthorityEnd c))
          match splitHostPort (afterLastAt auth) with
          | none => none
          | some hostChars =>
            match parseHostSpecial hostChars with
            | none => none
            | some h => some ⟨⟨scheme⟩, some h⟩
        else
          match rest with
          | '/' :: '/' :: rest2 =>
            let auth := rest2.takeWhile (fun c => !(plainAuthorityEnd c))
            match splitHostPort (afterLastAt auth) with
            | none => none
            | some hostChars =>
              if hostChars.head? == some '[' then some ⟨⟨scheme⟩, some (.ip ⟨hostChars⟩)⟩
              else if hostChars.any forbiddenHostChar then none
              else some ⟨⟨scheme⟩, some (.domain ⟨hostChars⟩)⟩
          | _ => some ⟨⟨scheme⟩, none⟩

/-- The `https://` normalization: main.rs inlines this expression verbatim
both in `looks_like_url` (lines 40-44) and in `load_image` (lines 98-102). -/
def withHttps (s : String) : String :=
  if !(strContainsSub s "://") then "https://" ++ s else s

/-- main.rs:23-58 `looks_like_url`. -/
def looks_like_url (s : String) : Bool :=
  if strStartsWith s "http://" || strStartsWith s "https://" then true
  else if strStartsWith s "www." then true
  else if strStartsWith s "." then false
  else
    match urlParse (withHttps s) with
    | some url =>
      if url.hasHost && url.domainStr.isSome then
        match url.domainStr with
        | some d =>
          strContainsChar d '.' && !(strEndsWith d ".") && !(strContainsChar d '\\')
        | none => false
      else false
    | none => false

/-- `std::path::Path::is_absolute` with Unix semantics: a leading `/`. -/
def path_is_absolute (s : String) : Bool := strStartsWith s "/"

/-- `std::path::Path::file_name` with Unix semantics: the last path component
after dropping empty components and `.`; `none` when nothing remains or the
path terminates in `..`. -/
def path_file_name (s : String) : Option String :=
  let comps := (splitOnChar '/' s.data).filter (fun c => !(c.isEmpty || c == ['.']))
  match comps.getLast? with
  | none => none
  | some c => if c == ['.', '.'] then none else some ⟨c⟩

/-- main.rs:79-91, the tail of `looks_like_local_path` reached when the two
separator-based rules fall through: a bare filename with an extension. -/
def simple_filename_check (s : String) : Bool :=
  if strContainsChar s '.' && !(strContainsSub s "://") && !(strStartsWith s "www.") then
    let last_segment := (path_file_name s).getD ""
    strContainsChar last_segment '.' && !(strStartsWith last_segment ".")
  else false

/-- main.rs:60-92 `looks_like_local_path`.  The length test mirrors
`s.len() >= 2 && s.chars().nth(1) == Some(':')`; on the ASCII inputs of this
development the Rust byte length and the character count coincide. -/
def looks_like_local_path (s : String) : Bool :=
  if path_is_absolute s then true
  else if strContainsChar s '\\' || strContainsChar s '/' then
    if 2 ≤ s.data.length ∧ s.data[1]? = some ':' then true
    else if !(strContainsSub s "://") then true
    else simple_filename_check s
  else simple_filename_check s

/-- The single retrieval operation `load_image` performs. -/
inductive LoadAction where
  | fetch (url : String)
  | openPath (p : String)
deriving DecidableEq

/-- main.rs:94-114 `load_image`, reduced to the retrieval operation it
issues: the remote branch fetches the normalized URL, every other
classification opens the string as a filesystem path. -/
def load_image_action (source : String) : LoadAction :=
  if looks_like_url source && !(looks_like_local_path source) then
    .fetch (withHttps source)
  else .openPath source

/-- `reqwest::StatusCode::is_success`. -/
def statusIsSuccess (code : Nat) : Bool :=
  decide (200 ≤ code) && decide (code < 300)

/-- A transport response: HTTP status and body bytes. -/
structure HttpResponse where
  status : Nat
  body : List Nat

/-- main.rs:104-109, the remote branch after the fetch returned: a
non-success status becomes a load error before the body ever reaches the
decoder, otherwise the bytes are decoded. -/
def remoteFetchResult {α : Type} (decode : List Nat → Except String α)
    (r : HttpResponse) : Except String α :=
  if !(statusIsSuccess r.status) then
    .error ("Failed to fetch image. Status: " ++ toString r.status)
  else decode r.body

/-- The two validation failures of main.rs:122-130. -/
inductive CliError where
  | mismatchedComponents
  | outOfRangeComponents
deriving DecidableEq

/-- main.rs:119-130 (inline in `main`), identical to the test helper
`validate_cli_parameters` at main.rs:274-287: default the missing pair to
`(4, 3)`, reject a mismatched presence, then reject values outside `1..=9`.
The Rust values are `u32`; the checks only compare against 1 and 9, so `Nat`
carries them faithfully. -/
def validate_cli_parameters (x y : Option Nat) : Except CliError (Nat × Nat) :=
  let components_x := x.getD 4
  let components_y := y.getD 3
  if x.isSome != y.isSome then .error .mismatchedComponents
  else if !(decide (1 ≤ components_x) && decide (components_x ≤ 9)) ||
          !(decide (1 ≤ components_y) && decide (components_y ≤ 9)) then
    .error .outOfRangeComponents
  else .ok (components_x, components_y)

/-- The retrieval operations `main` issues: none when validation fails
(main returns the error before calling `load_image`), otherwise exactly the
one operation of `load_image`. -/
def mainRetrievalOps (image : String) (x y : Option Nat) : List LoadAction :=
  match validate_cli_parameters x y with
  | .error _ => []
  | .ok _ => [load_image_action image]

/-- What the process does after `encode` returns. -/
inductive ProcessOutcome where
  | printed (s : String)
  | panicked (msg : String)
deriving DecidableEq

/-- main.rs:136-137: `println!("{}", blurhash.expect("Error during Blurhash
encoding"))` — an `Ok` hash is printed, an `Err` makes `expect` panic. -/
def reportEncodeResult (r : Except String String) : ProcessOutcome :=
  match r with
  | .ok h => .printed h
  | .error _ => .panicked "Error during Blurhash encoding"

/-- Modelled from the spec: §4.2 step 4 read literally, with "the parsed
result has a host and that host …" referring to the URL's host string
(`Url::host_str()`), which is present for IP-address hosts as well. -/
def specUrlRule4Host (s : String) : Bool :=
  match urlParse (withHttps s) with
  | some url =>
    match url.hostStr with
    | some h => strContainsChar h '.' && !(strEndsWith h ".") && !(strContainsChar h '\\')
    | none => false
  | none => false

/-- Modelled from the spec, amended: §4.2 step 4 with "host" read as the
URL's domain (`Url::domain()`, a named host — `none` for IP addresses). -/
def specUrlRule4Domain (s : String) : Bool :=
  match urlParse (withHttps s) with
  | some url =>
    match url.domainStr with
    | some d => strContainsChar d '.' && !(strEndsWith d ".") && !(strContainsChar d '\\')
    | none => false
  | none => false

/-! ## Claims -/

/-- C1: the dispatcher selects Remote retrieval exactly when `looks_like_url`
is true and `looks_like_local_path` is false; in Remote mode `https://` is
prepended exactly when the string contains no `://`; a non-success HTTP
status becomes a load error before the body reaches the decoder (for every
decoder); every other classification opens the string as a filesystem path
and issues no fetch. -/
theorem C1_dispatcher (s : String) (st : Nat) (body : List Nat)
    (decode : List Nat → Except String Nat) :
    (looks_like_url s = true ∧ looks_like_local_path s = false →
      load_image_action s = LoadAction.fetch (withHttps s))
  ∧ (¬ (looks_like_url s = true ∧ looks_like_local_path s = false) →
      load_image_action s = LoadAction.openPath s)
  ∧ (strContainsSub s "://" = false → withHttps s = "https://" ++ s)
  ∧ (strContainsSub s "://" = true → withHttps s = s)
  ∧ (statusIsSuccess st = false →
      remoteFetchResult decode ⟨st, body⟩ =
        Except.error ("Failed to fetch image. Status: " ++ toString st)) := by
  refine ⟨?_, ?_, ?_, ?_, ?_⟩
  · rintro ⟨h1, h2⟩
    simp [load_image_action, h1, h2]
  · intro h
    cases hc : looks_like_url s <;> cases hd : looks_like_local_path s <;>
      simp [load_image_action, hc, hd]
    exact absurd ⟨hc, hd⟩ h
  · intro h; simp [withHttps, h]
  · intro h; simp [withHttps, h]
  · intro h; simp [remoteFetchResult, h]

/-- C1 witness: `"www.example.com"` is classified Remote and fetched with the
scheme prepended; a 404 response is surfaced as a load error. -/
theorem C1_dispatcher_witness :
    load_image_action "www.example.com" = LoadAction.fetch "https://www.example.com"
  ∧ remoteFetchResult (fun _ => Except.ok (0 : Nat)) ⟨404, []⟩ =
      Except.error ("Failed to fetch image. Status: " ++ toString (404 : Nat)) := by
  have h := C1_dispatcher "www.example.com" 404 [] (fun _ => Except.ok 0)
  exact ⟨(h.1 ⟨rfl, rfl⟩).trans rfl, h.2.2.2.2 rfl⟩

/-- C2: component validation fails with a mismatched-components error when
exactly one value is present, defaults `(none, none)` to `(4, 3)`, fails with
an out-of-range error when a value lies outside `[1, 9]`, and otherwise
succeeds with the pair; including the spec's concrete examples. -/
theorem C2_validate_components :
    (∀ a : Nat,
        validate_cli_parameters (some a) none = Except.error CliError.mismatchedComponents
      ∧ validate_cli_parameters none (some a) = Except.error CliError.mismatchedComponents)
  ∧ validate_cli_parameters none none = Except.ok (4, 3)
  ∧ (∀ a b : Nat, (a < 1 ∨ 9 < a ∨ b < 1 ∨ 9 < b) →
      validate_cli_parameters (some a) (some b) = Except.error CliError.outOfRangeComponents)
  ∧ (∀ a b : Nat, 1 ≤ a → a ≤ 9 → 1 ≤ b → b ≤ 9 →
      validate_cli_parameters (some a) (some b) = Except.ok (a, b))
  ∧ (validate_cli_parameters (some 4) (some 3) = Except.ok (4, 3)
    ∧ validate_cli_parameters (some 1) (some 1) = Except.ok (1, 1)
    ∧ validate_cli_parameters (some 9) (some 9) = Except.ok (9, 9)
    ∧ validate_cli_parameters (some 10) (some 3) = Except.error CliError.outOfRangeComponents
    ∧ validate_cli_parameters (some 0) (some 3) = Except.error CliError.outOfRangeComponents
    ∧ validate_cli_parameters (some 4) none = Except.error CliError.mismatchedComponents
    ∧ validate_cli_parameters none (some 3) = Except.error CliError.mismatchedComponents) := by
  refine ⟨fun a => ⟨rfl, rfl⟩, rfl, ?_, ?_, rfl, rfl, rfl, rfl, rfl, rfl, rfl⟩
  · intro a b h
    simp [validate_cli_parameters]
    omega
  · intro a b h1 h2 h3 h4
    simp [validate_cli_parameters]
    omega

/-- C2 witness: `(some 10, some 3)` is rejected as out of range. -/
theorem C2_validate_components_witness :
    validate_cli_parameters (some 10) (some 3) = Except.error CliError.outOfRangeComponents :=
  C2_validate_components.2.2.1 10 3 (Or.inr (Or.inl (by omega)))

/-- C3: the code at main.rs:137 calls `.expect` on the encoder's result, so
an encoding failure terminates the process by a panic rather than being
surfaced on the normal error path — contradicting the claim (and §7/§9 of
the spec, which require a recoverable failure path). -/
theorem C3_encode_panics (e : String) :
    reportEncodeResult (Except.error e) =
      ProcessOutcome.panicked "Error during Blurhash encoding" := rfl

/-- C4 counterexample: `"127.0.0.1"` matches none of the four prefix rules,
and its parse result has a host (`"127.0.0.1"`, an IPv4 address) satisfying
the spec's three host conditions — yet `looks_like_url` returns false,
because the code checks `Url::domain()`, which is `none` for IP hosts. -/
theorem C4_counterexample :
    strStartsWith "127.0.0.1" "http://" = false
  ∧ strStartsWith "127.0.0.1" "https://" = false
  ∧ strStartsWith "127.0.0.1" "www." = false
  ∧ strStartsWith "127.0.0.1" "." = false
  ∧ specUrlRule4Host "127.0.0.1" = true
  ∧ looks_like_url "127.0.0.1" = false :=
  ⟨rfl, rfl, rfl, rfl, rfl, rfl⟩

/-- C4 (amended): for every string matching none of the prefix rules,
`looks_like_url` returns true iff the string — after prepending `https://`
when it contains no `://` — parses as a URL whose parsed result has a
domain (a named host, not an IP address) that contains at least one `.`,
does not end with `.`, and does not contain a backslash. -/
theorem C4_amended_domain (s : String)
    (h1 : strStartsWith s "http://" = false)
    (h2 : strStartsWith s "https://" = false)
    (h3 : strStartsWith s "www." = false)
    (h4 : strStartsWith s "." = false) :
    looks_like_url s = specUrlRule4Domain s := by
  unfold looks_like_url specUrlRule4Domain
  rw [h1, h2, h3, h4]
  simp only [Bool.or_self, Bool.false_or, Bool.or_false, if_false, ite_false]
  cases hu : urlParse (withHttps s) with
  | none => rfl
  | some url =>
    obtain ⟨sch, host⟩ := url
    cases host with
    | none => rfl
    | some h =>
      cases h with
      | domain d => simp [UrlRec.hasHost, UrlRec.domainStr]
      | ip i => simp [UrlRec.hasHost, UrlRec.domainStr]

/-- C4 witness: the amended equivalence at `"example.com/path"`. -/
theorem C4_amended_domain_witness :
    looks_like_url "example.com/path" = specUrlRule4Domain "example.com/path"
  ∧ looks_like_url "example.com/path" = true :=
  ⟨C4_amended_domain "example.com/path" rfl rfl rfl rfl, rfl⟩

/-- C5: every string beginning with `http://` or `https://` is classified as
a URL by `looks_like_url`, whatever the rest of the string is. -/
theorem C5_scheme_true (s : String)
    (h : strStartsWith s "http://" = true ∨ strStartsWith s "https://" = true) :
    looks_like_url s = true := by
  unfold looks_like_url
  rcases h with h | h <;> simp [h]

/-- C5 witness: `"http://just text"` starts with `http://` and is classified
as a URL even though nothing after the scheme resembles a host. -/
theorem C5_scheme_true_witness :
    looks_like_url "http://just text" = true :=
  C5_scheme_true "http://just text" (Or.inl rfl)

/-- C6: the spec's concrete `looks_like_url` examples, four accepted and
seven rejected. -/
theorem C6_url_examples :
    looks_like_url "www.example.com" = true
  ∧ looks_like_url "example.com/path" = true
  ∧ looks_like_url "subdomain.example.com" = true
  ∧ looks_like_url "example.com/image.jpg" = true
  ∧ looks_like_url "C:\\path\\to\\file.jpg" = false
  ∧ looks_like_url "/usr/local/file.jpg" = false
  ∧ looks_like_url "just-text" = false
  ∧ looks_like_url "" = false
  ∧ looks_like_url "example" = false
  ∧ looks_like_url "example." = false
  ∧ looks_like_url ".example" = false :=
  ⟨rfl, rfl, rfl, rfl, rfl, rfl, rfl, rfl, rfl, rfl, rfl⟩

/-- C7: the spec's concrete `looks_like_local_path` examples, four accepted
and six rejected. -/
theorem C7_local_path_examples :
    looks_like_local_path "C:\\Users\\test\\image.jpg" = true
  ∧ looks_like_local_path "/usr/local/images/test.jpg" = true
  ∧ looks_like_local_path "image.jpg" = true
  ∧ looks_like_local_path "my.complex.file.name.jpg" = true
  ∧ looks_like_local_path "https://example.com/image.jpg" = false
  ∧ looks_like_local_path "" = false
  ∧ looks_like_local_path "noextension" = false
  ∧ looks_like_local_path ".hidden" = false
  ∧ looks_like_local_path "." = false
  ∧ looks_like_local_path ".." = false :=
  ⟨rfl, rfl, rfl, rfl, rfl, rfl, rfl, rfl, rfl, rfl⟩

/-- C8: whenever component validation fails, `main` issues no retrieval
operation at all (no fetch, no filesystem open); in particular `-x 10` with
no `-y` is rejected before any I/O. -/
theorem C8_validation_gates_io :
    (∀ (image : String) (x y : Option Nat) (e : CliError),
        validate_cli_parameters x y = Except.error e → mainRetrievalOps image x y = [])
  ∧ (∀ image : String,
        mainRetrievalOps image (some 10) none = []
      ∧ validate_cli_parameters (some 10) none =
          Except.error CliError.mismatchedComponents) := by
  refine ⟨?_, fun image => ⟨rfl, rfl⟩⟩
  intro image x y e h
  unfold mainRetrievalOps
  rw [h]

/-- C8 witness: with `-x 10` and no `-y`, no retrieval operation happens. -/
theorem C8_validation_gates_io_witness :
    mainRetrievalOps "photo.jpg" (some 10) none = [] :=
  C8_validation_gates_io.1 "photo.jpg" (some 10) none CliError.mismatchedComponents rfl

/-- C9: the drive-letter rule only tests that the character at index 1 is
`':'`: every string of length at least 2 containing `/` or `\` whose second
character is `':'` is accepted by `looks_like_local_path`, whatever its first
character is and even when it contains `://`. -/
theorem C9_drive_letter_colon (s : String)
    (hlen : 2 ≤ s.data.length)
    (hsep : strContainsChar s '/' = true ∨ strContainsChar s '\\' = true)
    (hcolon : s.data[1]? = some ':') :
    looks_like_local_path s = true := by
  unfold looks_like_local_path
  cases habs : path_is_absolute s with
  | true => simp
  | false =>
    have hb : (strContainsChar s '\\' || strContainsChar s '/') = true := by
      rcases hsep with h | h <;> simp [h]
    simp only [hb, if_true, Bool.false_eq_true, if_false]
    rw [if_pos (And.intro hlen hcolon)]

/-- C9 witness: `"1:\file.jpg"` (non-letter drive) and `"x://y"` (contains
the scheme separator) are both accepted by `looks_like_local_path`. -/
theorem C9_drive_letter_colon_witness :
    looks_like_local_path "1:\\file.jpg" = true
  ∧ looks_like_local_path "x://y" = true
  ∧ strContainsSub "x://y" "://" = true := by
  refine ⟨?_, ?_, rfl⟩
  · exact C9_drive_letter_colon "1:\\file.jpg" (by decide) (Or.inr rfl) rfl
  · exact C9_drive_letter_colon "x://y" (by decide) (Or.inl rfl) rfl

/-- C10: `"ftp://example.com/img.png"` is classified as a URL and not as a
local path, so the dispatcher selects Remote mode and fetches the string
unchanged — no `https://` is prepended and the scheme is not rejected. -/
theorem C10_ftp_remote_unchanged :
    looks_like_url "ftp://example.com/img.png" = true
  ∧ looks_like_local_path "ftp://example.com/img.png" = false
  ∧ withHttps "ftp://example.com/img.png" = "ftp://example.com/img.png"
  ∧ load_image_action "ftp://example.com/img.png" =
      LoadAction.fetch "ftp://example.com/img.png" :=
  ⟨rfl, rfl, rfl, rfl⟩

end BlurhashGen
